import Mathlib

/-!
Verification of the MediMind retrieval/generation backend (`app.py`).

The Flask endpoints `/upload`, `/ask`, `/summarize`, `/flashcards` are
shallowly embedded as pure Lean functions.  JSON request bodies and
response bodies are modelled by an inductive `Json` type; Python-level
semantics that the endpoint code relies on (truthiness, `int(...)`,
`str.strip()`, f-string conversion, `json.loads`) are modelled by
explicit functions.  External collaborators that live outside `app.py`
(the document parser, the text splitter, the embedding client, the
vector index query, the answer generator) are passed in as function
parameters, so every theorem quantifies over their behaviour.
-/

/-- JSON values.  Numbers are modelled as integers: every numeric
literal the endpoints manipulate (`top_k`, chunk counters) is integral. -/
inductive Json where
  | null : Json
  | bool : Bool → Json
  | num : Int → Json
  | str : String → Json
  | arr : List Json → Json
  | obj : List (String × Json) → Json
deriving Repr

/-- `d.get(k, default)` on a Python dict modelled as an association list. -/
def dictGetD (d : List (String × Json)) (k : String) (dflt : Json) : Json :=
  (List.lookup k d).getD dflt

/-- Does a JSON object carry the given key? -/
def hasKey (j : Json) (k : String) : Bool :=
  match j with
  | .obj kvs => kvs.any (fun p => p.1 == k)
  | _ => false

/-- Python truthiness of a JSON value (`if not x`). -/
def pyTruthy : Json → Bool
  | .null => false
  | .bool b => b
  | .num n => n != 0
  | .str s => s != ""
  | .arr xs => !xs.isEmpty
  | .obj kvs => !kvs.isEmpty

/-- Characters Python's `str.strip()` removes. -/
def isPyWs (c : Char) : Bool :=
  [' ', '\t', '\n', '\r', '\x0b', '\x0c'].contains c

/-- Python `str.strip()`: drop whitespace from both ends. -/
def pyStripStr (s : String) : String :=
  String.mk (((s.data.dropWhile isPyWs).reverse.dropWhile isPyWs).reverse)

/-- Python `x.strip()` on a JSON value: only strings have the method;
anything else raises `AttributeError`. -/
def jStrip : Json → Except String String
  | .str s => .ok (pyStripStr s)
  | _ => .error "AttributeError: strip"

/-- A non-empty all-digit run as a natural number. -/
def digitsToNat : List Char → Option Nat
  | [] => none
  | cs =>
    if cs.all (fun c => c.isDigit) then
      some (cs.foldl (fun acc c => acc * 10 + (c.toNat - 48)) 0)
    else none

/-- Python `int(s)` on a string: strip whitespace, optional sign, digits. -/
def pyIntOfStr (s : String) : Except String Int :=
  match (pyStripStr s).data with
  | '-' :: ds => match digitsToNat ds with
    | some n => .ok (-(n : Int))
    | none => .error "ValueError: int"
  | '+' :: ds => match digitsToNat ds with
    | some n => .ok (n : Int)
    | none => .error "ValueError: int"
  | ds => match digitsToNat ds with
    | some n => .ok (n : Int)
    | none => .error "ValueError: int"

/-- Python `int(x)` on a JSON value: ints pass through, bools coerce,
numeric strings parse, everything else raises. -/
def pyInt : Json → Except String Int
  | .num n => .ok n
  | .bool b => .ok (if b then 1 else 0)
  | .str s => pyIntOfStr s
  | _ => .error "TypeError: int"

mutual

/-- Python `repr` of a JSON value (as used by `str` on containers). -/
def pyRepr : Json → String
  | .null => "None"
  | .bool true => "True"
  | .bool false => "False"
  | .num n => toString n
  | .str s => "\x27" ++ s ++ "\x27"
  | .arr xs => "[" ++ pyReprArr xs ++ "]"
  | .obj kvs => "\x7b" ++ pyReprObj kvs ++ "\x7d"

/-- Comma-separated reprs of the elements of a list. -/
def pyReprArr : List Json → String
  | [] => ""
  | [x] => pyRepr x
  | x :: y :: xs => pyRepr x ++ ", " ++ pyReprArr (y :: xs)

/-- Comma-separated `key: value` reprs of the members of a dict. -/
def pyReprObj : List (String × Json) → String
  | [] => ""
  | [(k, v)] => "\x27" ++ k ++ "\x27: " ++ pyRepr v
  | (k, v) :: m :: kvs => "\x27" ++ k ++ "\x27: " ++ pyRepr v ++ ", " ++ pyReprObj (m :: kvs)

end

/-- Python `str(x)` as used by f-string interpolation. -/
def pyStr : Json → String
  | .str s => s
  | j => pyRepr j

/-- Whitespace the JSON grammar skips between tokens. -/
def jIsWs (c : Char) : Bool :=
  [' ', '\t', '\n', '\r'].contains c

/-- Skip JSON inter-token whitespace. -/
def jSkipWs (cs : List Char) : List Char := cs.dropWhile jIsWs

/-- The JSON string-escape table, as source/translated character pairs. -/
def jEscTable : List (Char × Char) :=
  [('"', '"'), ('\\', '\\'), ('/', '/'), ('n', '\n'), ('t', '\t'),
   ('r', '\r'), ('b', '\x08'), ('f', '\x0c')]

/-- One JSON string-escape character. -/
def jEsc (c : Char) : Option Char := List.lookup c jEscTable

/-- Body of a JSON string after the opening quote; `acc` holds the
characters read so far, reversed. -/
def jParseStrAux : List Char → List Char → Option (String × List Char)
  | _, [] => none
  | acc, '"' :: rest => some (String.mk acc.reverse, rest)
  | acc, '\\' :: rest =>
    match rest with
    | [] => none
    | e :: rest2 =>
      match jEsc e with
      | some c => jParseStrAux (c :: acc) rest2
      | none => none
  | acc, c :: rest =>
    if c.toNat < 32 then none else jParseStrAux (c :: acc) rest

/-- Greedy digit run with its remainder. -/
def jTakeDigits (cs : List Char) : List Char × List Char :=
  (cs.takeWhile (fun c => c.isDigit), cs.dropWhile (fun c => c.isDigit))

/-- A JSON integer literal (no fraction/exponent: the model restricts
JSON numbers to integers). Enforces the no-leading-zero rule. -/
def jParseNum (cs : List Char) : Option (Int × List Char) :=
  let (sign, cs1) : Int × List Char :=
    match cs with
    | '-' :: rest => (-1, rest)
    | _ => (1, cs)
  let (ds, rest) := jTakeDigits cs1
  match ds with
  | [] => none
  | ['0'] => some (0, rest)
  | '0' :: _ :: _ => none
  | _ =>
    match rest with
    | '.' :: _ => none
    | 'e' :: _ => none
    | 'E' :: _ => none
    | _ => some (sign * (ds.foldl (fun acc c => acc * 10 + (c.toNat - 48)) 0 : Nat), rest)

/-- Parser mode: a single value, the tail of an array, or the tail of
an object. -/
inductive JMode where
  | val : JMode
  | items : JMode
  | members : JMode

/-- Parser output for each mode. -/
inductive JOut where
  | v : Json → JOut
  | vs : List Json → JOut
  | ms : List (String × Json) → JOut

/-- Fuel-indexed recursive-descent JSON parser (model of `json.loads`'s
grammar, restricted to integer numbers and `\u`-free strings). -/
def jP : Nat → JMode → List Char → Option (JOut × List Char)
  | 0, _, _ => none
  | fuel + 1, .val, cs =>
    match jSkipWs cs with
    | 'n' :: 'u' :: 'l' :: 'l' :: rest => some (.v .null, rest)
    | 't' :: 'r' :: 'u' :: 'e' :: rest => some (.v (.bool true), rest)
    | 'f' :: 'a' :: 'l' :: 's' :: 'e' :: rest => some (.v (.bool false), rest)
    | '"' :: rest =>
      match jParseStrAux [] rest with
      | some (s, rest2) => some (.v (.str s), rest2)
      | none => none
    | '[' :: rest =>
      match jSkipWs rest with
      | ']' :: rest2 => some (.v (.arr []), rest2)
      | rest2 =>
        match jP fuel .items rest2 with
        | some (.vs js, r) => some (.v (.arr js), r)
        | _ => none
    | '\x7b' :: rest =>
      match jSkipWs rest with
      | '\x7d' :: rest2 => some (.v (.obj []), rest2)
      | rest2 =>
        match jP fuel .members rest2 with
        | some (.ms kvs, r) => some (.v (.obj kvs), r)
        | _ => none
    | cs2 =>
      match jParseNum cs2 with
      | some (n, rest) => some (.v (.num n), rest)
      | none => none
  | fuel + 1, .items, cs =>
    match jP fuel .val cs with
    | some (.v j, rest) =>
      match jSkipWs rest with
      | ',' :: rest2 =>
        match jP fuel .items rest2 with
        | some (.vs js, r) => some (.vs (j :: js), r)
        | _ => none
      | ']' :: rest2 => some (.vs [j], rest2)
      | _ => none
    | _ => none
  | fuel + 1, .members, cs =>
    match jSkipWs cs with
    | '"' :: rest =>
      match jParseStrAux [] rest with
      | none => none
      | some (k, rest2) =>
        match jSkipWs rest2 with
        | ':' :: rest3 =>
          match jP fuel .val rest3 with
          | some (.v v, rest4) =>
            match jSkipWs rest4 with
            | ',' :: rest5 =>
              match jP fuel .members rest5 with
              | some (.ms kvs, r) => some (.ms ((k, v) :: kvs), r)
              | _ => none
            | '\x7d' :: rest5 => some (.ms [(k, v)], rest5)
            | _ => none
          | _ => none
        | _ => none
    | _ => none

/-- Model of Python `json.loads`: parse one value, demand only
whitespace behind it; `none` models a raised `JSONDecodeError`. -/
def jloads (s : String) : Option Json :=
  match jP (2 * s.length + 4) .val s.data with
  | some (.v j, rest) => if jSkipWs rest = [] then some j else none
  | _ => none


/-! ## Upload pipeline (`app.py` lines 23, 34-82) -/

/-- `ALLOWED_EXT` from `app.py`. -/
def ALLOWED_EXT : List String := [".pdf", ".docx", ".txt", ".md"]

/-- The extension component of `os.path.splitext`: the suffix from the
last dot, provided some earlier character of the name is not a dot
(so purely-leading dots are not an extension separator). -/
def lastIdxOf (c : Char) : List Char → Option Nat
  | [] => none
  | x :: xs =>
    match lastIdxOf c xs with
    | some i => some (i + 1)
    | none => if x = c then some 0 else none

/-- Extension part of `os.path.splitext(p)` (filenames here contain no
path separators). -/
def splitextExt (p : String) : String :=
  match lastIdxOf '.' p.data with
  | none => ""
  | some i =>
    if (p.data.take i).any (fun c => c ≠ '.') then String.mk (p.data.drop i)
    else ""

/-- Python `str.lower()` (ASCII case mapping). -/
def pyLower (s : String) : String := String.mk (s.data.map Char.toLower)

/-- `_allowed` from `app.py`: extension membership check.  (Defined in
the source but never invoked by any endpoint.) -/
def _allowed (filename : String) : Bool :=
  ALLOWED_EXT.contains (pyLower (splitextExt filename))


/-- Python `text[:1200]`-style slicing. -/
def pyTake (s : String) (n : Nat) : String := String.mk (s.data.take n)

/-- The metadata dict attached to each upserted vector. -/
structure ChunkMeta where
  doc_id : String
  filename : String
  chunk_id : Nat
  text : String
deriving Repr, DecidableEq

/-- One record of `vectors_to_upsert`. -/
structure UpsertVec where
  id : String
  values : List Int
  metadata : ChunkMeta
deriving Repr, DecidableEq

/-- The inner loop of `/upload` over one page: zips the page's chunks
with their embedding vectors (the source's `zip(page_chunks, vectors)`),
threading the running global `chunk_counter`.  Returns the records in
production order together with the updated counter. -/
def pageFold (file_id filename : String) :
    List (Nat × String) → List (List Int) → Nat → List UpsertVec × Nat
  | [], _, c => ([], c)
  | _ :: _, [], c => ([], c)
  | (_, text) :: rest, vec :: vrest, c =>
    let r := pageFold file_id filename rest vrest (c + 1)
    ({ id := file_id ++ "-" ++ toString c,
       values := vec,
       metadata := { doc_id := file_id, filename := filename,
                     chunk_id := c, text := pyTake text 1200 } } :: r.1, r.2)

/-- The page loop of `/upload`: for each page's chunk list, embed the
chunk texts in one batched call and accumulate upsert records, carrying
the global chunk counter across pages. -/
def uploadVectors (file_id filename : String) (embed : String → List Int) :
    List (List (Nat × String)) → Nat → List UpsertVec × Nat
  | [], c => ([], c)
  | page :: rest, c =>
    let pr := pageFold file_id filename page (page.map (fun p => embed p.2)) c
    let ur := uploadVectors file_id filename embed rest pr.2
    (pr.1 ++ ur.1, ur.2)

/-- The uploaded file as the endpoint sees it. -/
structure UploadFile where
  filename : String
deriving Repr, DecidableEq

/-- Outcome of `/upload`: a 400 validation error, or a 200 response
with the upsert call recorded (`upsertCalled` is true exactly when
`vectors_to_upsert` was non-empty so `index.upsert` ran, and `upserted`
is the record list it was given). -/
inductive UploadResult where
  | badRequest : Json → UploadResult
  | success : Json → Bool → List UpsertVec → UploadResult
deriving Repr

/-- The `/upload` endpoint.  `sf` models `werkzeug.secure_filename`,
`file_id` the generated `uuid4`, `embed` the embedding client,
`extract` the document parser (path to page texts) and `split` the
text splitter `split_text(page, 1000, 200)` (local-index, text pairs). -/
def upload (sf : String → String) (file_id : String) (embed : String → List Int)
    (extract : String → List String) (split : String → List (Nat × String))
    (student_id : Option String) (f : Option UploadFile) : UploadResult :=
  match student_id, f with
  | some sid, some ff =>
    if sid = "" ∨ ff.filename = "" then
      .badRequest (.obj [("error", .str "student_id and file are required")])
    else
      let filename := sf ff.filename
      let saved_path := file_id ++ "_" ++ filename
      let pages := (extract saved_path).map split
      let uv := uploadVectors file_id filename embed pages 0
      .success (.obj [("ok", .bool true), ("doc_id", .str file_id),
                      ("num_chunks", .num (Int.ofNat uv.2)),
                      ("filename", .str filename)])
        (!uv.1.isEmpty) uv.1
  | _, _ => .badRequest (.obj [("error", .str "student_id and file are required")])

/-! ## Query endpoints (`app.py` lines 86-232) -/

/-- Modelled from the spec: one ranked match returned by the Vector
Index via `query_chunks` (`services/retriever.py`, not in the sources):
a metadata dict plus a relevance score.  The endpoints read
`m["metadata"]` and `m.get("score")`. -/
structure MatchRec where
  metadata : List (String × Json)
  score : Json

/-- Outcome of `/ask` or `/summarize`: an uncaught Python exception
(Flask turns it into an HTTP 500), a 400 validation error, or a 200
response.  The Bool on `respOk` records whether `answer_with_context`
(the Answer Generator) was invoked while producing the response. -/
inductive EpResult where
  | crash : String → EpResult
  | resp400 : Json → EpResult
  | respOk : Json → Bool → EpResult

/-- HTTP status of an `EpResult`. -/
def EpResult.statusOf : EpResult → Nat
  | .crash _ => 500
  | .resp400 _ => 400
  | .respOk _ _ => 200

/-- Response body of an `EpResult` (the crash case produces Flask's
non-JSON error page, modelled as `null`). -/
def EpResult.bodyOf : EpResult → Json
  | .crash _ => .null
  | .resp400 b => b
  | .respOk b _ => b

/-- The context tag `/ask` builds for one match:
`f"[chunk {meta.get('chunk_id')} from {meta.get('filename')}] {snippet}"`. -/
def askTag (m : MatchRec) : String :=
  "[chunk " ++ pyStr (dictGetD m.metadata "chunk_id" .null) ++ " from "
    ++ pyStr (dictGetD m.metadata "filename" .null) ++ "] "
    ++ pyStr (dictGetD m.metadata "text" (.str ""))

/-- One `/ask` citation entry. -/
def askCite (m : MatchRec) : Json :=
  .obj [("doc_id", dictGetD m.metadata "doc_id" .null),
        ("filename", dictGetD m.metadata "filename" .null),
        ("chunk_id", dictGetD m.metadata "chunk_id" .null),
        ("score", m.score)]

/-- The `/ask` endpoint.  `query` models `query_chunks` (student id,
query text, top_k ↦ match list) and `gen` models `answer_with_context`
(question, context ↦ answer); `body` is the request's JSON object. -/
def ask (query : Json → String → Int → List MatchRec)
    (gen : String → String → String) (body : List (String × Json)) : EpResult :=
  let student_id := dictGetD body "student_id" .null
  match jStrip (dictGetD body "question" (.str "")) with
  | .error e => .crash e
  | .ok question =>
    match pyInt (dictGetD body "top_k" (.num 6)) with
    | .error e => .crash e
    | .ok top_k =>
      if ¬ pyTruthy student_id ∨ question = "" then
        .resp400 (.obj [("error", .str "student_id and question are required")])
      else
        let matchList := query student_id question top_k
        if matchList.isEmpty then
          .respOk (.obj [("answer", .str "I couldn’t find this in your notes."),
                         ("context_used", .arr [])]) false
        else
          let context_str := String.intercalate "\n\n" (matchList.map askTag)
          let answer := gen question context_str
          .respOk (.obj [("answer", .str answer),
                         ("context_used", .arr (matchList.map askCite))]) true

/-- The context tag `/summarize` builds for one match (same shape as
`/ask`'s, with `meta.get('text','')` interpolated). -/
def sumTag (m : MatchRec) : String :=
  "[chunk " ++ pyStr (dictGetD m.metadata "chunk_id" .null) ++ " from "
    ++ pyStr (dictGetD m.metadata "filename" .null) ++ "] "
    ++ pyStr (dictGetD m.metadata "text" (.str ""))

/-- The `/summarize` endpoint. -/
def summarize (query : Json → String → Int → List MatchRec)
    (gen : String → String → String) (body : List (String × Json)) : EpResult :=
  let student_id := dictGetD body "student_id" .null
  match jStrip (dictGetD body "topic" (.str "")) with
  | .error e => .crash e
  | .ok topic =>
    match pyInt (dictGetD body "top_k" (.num 12)) with
    | .error e => .crash e
    | .ok top_k =>
      if ¬ pyTruthy student_id ∨ topic = "" then
        .resp400 (.obj [("error", .str "student_id and topic are required")])
      else
        let matchList := query student_id topic top_k
        if matchList.isEmpty then
          .respOk (.obj [("summary", .str "No relevant notes found to summarize.")]) false
        else
          let ctx := String.intercalate "\n\n" (matchList.map sumTag)
          let prompt := "Summarize the topic: " ++ topic
            ++ " using ONLY the context below. Produce a concise, exam-oriented summary with bullet points and key definitions."
          let summary := gen prompt ctx
          .respOk (.obj [("topic", .str topic), ("summary", .str summary)]) true

/-- `"\n\n".join(...)` over raw metadata values: every element must be
a string, otherwise Python raises `TypeError`. -/
def joinAllStr (sep : String) : List Json → Except String String
  | [] => .ok ""
  | [.str s] => .ok s
  | .str s :: y :: rest =>
    match joinAllStr sep (y :: rest) with
    | .ok t => .ok (s ++ sep ++ t)
    | .error e => .error e
  | _ => .error "TypeError: join"

/-- The context `/flashcards` assembles: joined match texts, or the
generic placeholder when the index returned no matches. -/
def flashCtx (ms : List MatchRec) (topic : String) : Except String String :=
  if ms.isEmpty then .ok ("General notes about " ++ topic)
  else joinAllStr "\n\n" (ms.map (fun m => dictGetD m.metadata "text" (.str "")))

/-- The flashcard generation prompt from `app.py`. -/
def flashcardsPrompt (topic ctx : String) : String :=
  "Generate 6-8 flashcards for medical exam preparation about **" ++ topic
    ++ "**. If context is available, use ONLY that. If not, use general medical knowledge. Each flashcard must be a JSON object with \x27question\x27 and \x27answer\x27. Return ONLY a valid JSON list. Example:\n[\x7b\"question\": \"What is X?\", \"answer\": \"Y\"\x7d]\n\nContext:\n"
    ++ ctx

/-- Python `response.split("\n")`, accumulator-style: splits at every
newline, keeping empty segments. -/
def splitNlAux : List Char → List Char → List String
  | acc, [] => [String.mk acc.reverse]
  | acc, '\n' :: rest => String.mk acc.reverse :: splitNlAux [] rest
  | acc, c :: rest => splitNlAux (c :: acc) rest

/-- Python `s.split("\n")`. -/
def pySplitNl (s : String) : List String := splitNlAux [] s.data

/-- Python `"?" in line`. -/
def pyContainsQm (s : String) : Bool := s.data.any (fun c => c == '?')


/-- The line-scan fallback of `/flashcards`: every line of the response
containing a question mark becomes a question with an empty answer. -/
def lineScanFlashcards (response : String) : Json :=
  .arr (((pySplitNl response).filter pyContainsQm).map
    (fun l => .obj [("question", .str (pyStripStr l)), ("answer", .str "")]))

/-- Outcome of `/flashcards`: a 400 validation error, a caught
exception surfaced as a 500 with an error body, or a 200 response.
On `respOk`, the Bool records that `answer_with_context` was invoked
and the String is the `ctx` argument it received. -/
inductive FlashResult where
  | resp400 : Json → FlashResult
  | resp500 : Json → FlashResult
  | respOk : Json → Bool → String → FlashResult

/-- HTTP status of a `FlashResult`. -/
def FlashResult.statusOf : FlashResult → Nat
  | .resp400 _ => 400
  | .resp500 _ => 500
  | .respOk _ _ _ => 200

/-- Response body of a `FlashResult`. -/
def FlashResult.bodyOf : FlashResult → Json
  | .resp400 b => b
  | .resp500 b => b
  | .respOk b _ _ => b

/-- The `ctx` string handed to the Answer Generator (empty if it was
never invoked). -/
def FlashResult.genContextOf : FlashResult → String
  | .respOk _ _ c => c
  | _ => ""

/-- Whether the Answer Generator was invoked. -/
def FlashResult.genCalledOf : FlashResult → Bool
  | .respOk _ g _ => g
  | _ => false

/-- `body.get("topic") or ""` from `/flashcards`: the topic value if
truthy, else the empty string. -/
def flashTopicRaw (body : List (String × Json)) : Json :=
  let t := dictGetD body "topic" .null
  if pyTruthy t then t else .str ""

/-- The `/flashcards` endpoint.  The whole handler body runs inside
`try/except`, so any raised exception becomes a 500 with
`{"error": str(e)}` rather than a crash. -/
def flashcards (query : Json → String → Int → List MatchRec)
    (gen : String → String → String) (body : List (String × Json)) : FlashResult :=
  let student_id := dictGetD body "student_id" .null
  match jStrip (flashTopicRaw body) with
  | .error e => .resp500 (.obj [("error", .str e)])
  | .ok topic =>
    match pyInt (dictGetD body "top_k" (.num 10)) with
    | .error e => .resp500 (.obj [("error", .str e)])
    | .ok top_k =>
      if ¬ pyTruthy student_id ∨ topic = "" then
        .resp400 (.obj [("error", .str "student_id and topic are required")])
      else
        let matchList := query student_id topic top_k
        match flashCtx matchList topic with
        | .error e => .resp500 (.obj [("error", .str e)])
        | .ok ctx =>
          let response := gen (flashcardsPrompt topic ctx) ctx
          let cards :=
            match jloads response with
            | some v => v
            | none => lineScanFlashcards response
          .respOk (.obj [("flashcards", cards)]) true ctx

/-! ## Lemmas about the upload loop -/

theorem length_mk (l : List Char) : (String.mk l).length = l.length := rfl

theorem pyTake_length_le (s : String) (n : Nat) : (pyTake s n).length ≤ n := by
  simp [pyTake, length_mk]

theorem pageFold_snd (fid fn : String) (page : List (Nat × String))
    (vecs : List (List Int)) (c : Nat) :
    (pageFold fid fn page vecs c).2 = c + (pageFold fid fn page vecs c).1.length := by
  induction page generalizing vecs c with
  | nil => simp [pageFold]
  | cons hd tl ih =>
    cases vecs with
    | nil => simp [pageFold]
    | cons v vs =>
      obtain ⟨a, t⟩ := hd
      simp only [pageFold, List.length_cons]
      rw [ih vs (c + 1)]
      omega

theorem pageFold_ids (fid fn : String) (page : List (Nat × String))
    (vecs : List (List Int)) (c : Nat) :
    (pageFold fid fn page vecs c).1.map (fun r => r.metadata.chunk_id)
      = List.range' c (pageFold fid fn page vecs c).1.length := by
  induction page generalizing vecs c with
  | nil => simp [pageFold]
  | cons hd tl ih =>
    cases vecs with
    | nil => simp [pageFold]
    | cons v vs =>
      obtain ⟨a, t⟩ := hd
      simp only [pageFold, List.map_cons, List.length_cons, List.range'_succ]
      rw [ih vs (c + 1)]

theorem pageFold_mem (fid fn : String) (page : List (Nat × String))
    (vecs : List (List Int)) (c : Nat) :
    ∀ r ∈ (pageFold fid fn page vecs c).1,
      r.id = fid ++ "-" ++ toString r.metadata.chunk_id
        ∧ r.metadata.text.length ≤ 1200 := by
  induction page generalizing vecs c with
  | nil => simp [pageFold]
  | cons hd tl ih =>
    cases vecs with
    | nil => simp [pageFold]
    | cons v vs =>
      obtain ⟨a, t⟩ := hd
      intro r hr
      simp only [pageFold, List.mem_cons] at hr
      rcases hr with rfl | hr
      · exact ⟨rfl, pyTake_length_le t 1200⟩
      · exact ih vs (c + 1) r hr

theorem uploadVectors_snd (fid fn : String) (embed : String → List Int)
    (pages : List (List (Nat × String))) (c : Nat) :
    (uploadVectors fid fn embed pages c).2
      = c + (uploadVectors fid fn embed pages c).1.length := by
  induction pages generalizing c with
  | nil => simp [uploadVectors]
  | cons page rest ih =>
    simp only [uploadVectors, List.length_append]
    rw [ih, pageFold_snd]
    omega

theorem uploadVectors_ids (fid fn : String) (embed : String → List Int)
    (pages : List (List (Nat × String))) (c : Nat) :
    (uploadVectors fid fn embed pages c).1.map (fun r => r.metadata.chunk_id)
      = List.range' c (uploadVectors fid fn embed pages c).1.length := by
  induction pages generalizing c with
  | nil => simp [uploadVectors]
  | cons page rest ih =>
    simp only [uploadVectors, List.map_append, List.length_append]
    rw [ih, pageFold_ids, pageFold_snd, List.range'_append_1, Nat.add_comm]

theorem uploadVectors_mem (fid fn : String) (embed : String → List Int)
    (pages : List (List (Nat × String))) (c : Nat) :
    ∀ r ∈ (uploadVectors fid fn embed pages c).1,
      r.id = fid ++ "-" ++ toString r.metadata.chunk_id
        ∧ r.metadata.text.length ≤ 1200 := by
  induction pages generalizing c with
  | nil => simp [uploadVectors]
  | cons page rest ih =>
    intro r hr
    simp only [uploadVectors, List.mem_append] at hr
    rcases hr with hr | hr
    · exact pageFold_mem fid fn page _ c r hr
    · exact ih _ r hr

theorem uploadVectors_empty_pages (fid fn : String) (embed : String → List Int)
    (pages : List (List (Nat × String))) (c : Nat)
    (h : ∀ p ∈ pages, p = []) :
    uploadVectors fid fn embed pages c = ([], c) := by
  induction pages generalizing c with
  | nil => simp [uploadVectors]
  | cons page rest ih =>
    have hp : page = [] := h page (List.mem_cons_self _ _)
    subst hp
    simp only [uploadVectors, List.map_nil, pageFold]
    rw [ih c (fun p hp => h p (List.mem_cons_of_mem _ hp))]
    simp

/-! ## Claim theorems -/

/-- C7: for every upload, the upsert records carry a global chunk
counter that starts at 0 and increases by 1 in production order across
page boundaries — the chunk ids are exactly `0 .. n-1` — the final
counter equals the number of records, and each record's vector id is
the document id joined with its counter by a hyphen. -/
theorem upload_chunk_ids_contiguous (fid fn : String) (embed : String → List Int)
    (pages : List (List (Nat × String))) :
    (uploadVectors fid fn embed pages 0).1.map (fun r => r.metadata.chunk_id)
      = List.range (uploadVectors fid fn embed pages 0).1.length
    ∧ (uploadVectors fid fn embed pages 0).2
      = (uploadVectors fid fn embed pages 0).1.length
    ∧ ∀ r ∈ (uploadVectors fid fn embed pages 0).1,
        r.id = fid ++ "-" ++ toString r.metadata.chunk_id := by
  refine ⟨?_, ?_, ?_⟩
  · rw [uploadVectors_ids, List.range_eq_range']
  · rw [uploadVectors_snd]
    omega
  · intro r hr
    exact (uploadVectors_mem fid fn embed pages 0 r hr).1

/-- A concrete upsert record, as produced second by the sample upload
below (chunk "bb" of the two-page document). -/
def recW1 : UpsertVec :=
  { id := "doc-1", values := [1],
    metadata := { doc_id := "doc", filename := "n.md", chunk_id := 1, text := "bb" } }

theorem upload_chunk_ids_contiguous_witness :
    ((uploadVectors "doc" "n.md" (fun _ => [1]) [[(0, "aa"), (1, "bb")], [(0, "cc")]] 0).1.map
        (fun r => r.metadata.chunk_id))
      = List.range (uploadVectors "doc" "n.md" (fun _ => [1]) [[(0, "aa"), (1, "bb")], [(0, "cc")]] 0).1.length
    ∧ recW1.id = "doc" ++ "-" ++ toString recW1.metadata.chunk_id :=
  ⟨(upload_chunk_ids_contiguous "doc" "n.md" (fun _ => [1])
      [[(0, "aa"), (1, "bb")], [(0, "cc")]]).1,
   (upload_chunk_ids_contiguous "doc" "n.md" (fun _ => [1])
      [[(0, "aa"), (1, "bb")], [(0, "cc")]]).2.2 _ (by decide)⟩

/-- C8: every chunk record written during an upload stores at most
1200 characters of text in its metadata. -/
theorem upload_stored_text_le_1200 (fid fn : String) (embed : String → List Int)
    (pages : List (List (Nat × String))) :
    ∀ r ∈ (uploadVectors fid fn embed pages 0).1, r.metadata.text.length ≤ 1200 :=
  fun r hr => (uploadVectors_mem fid fn embed pages 0 r hr).2

theorem upload_stored_text_le_1200_witness :
    ({ id := "doc-0", values := [1],
       metadata := { doc_id := "doc", filename := "n.md", chunk_id := 0,
                     text := "aa" } } : UpsertVec).metadata.text.length ≤ 1200 :=
  upload_stored_text_le_1200 "doc" "n.md" (fun _ => [1]) [[(0, "aa")]] _ (by decide)

/-- C10: an upload whose document yields zero chunks makes no upsert
call and still returns HTTP 200 with `ok` true, `num_chunks` 0 and the
generated document id. -/
theorem upload_zero_chunks_no_upsert (sf : String → String) (fid : String)
    (embed : String → List Int) (extract : String → List String)
    (split : String → List (Nat × String)) (sid : String) (ff : UploadFile)
    (hs : sid ≠ "") (hf : ff.filename ≠ "")
    (h : ∀ t ∈ extract (fid ++ "_" ++ sf ff.filename), split t = []) :
    upload sf fid embed extract split (some sid) (some ff)
      = .success (.obj [("ok", .bool true), ("doc_id", .str fid),
                        ("num_chunks", .num 0),
                        ("filename", .str (sf ff.filename))])
          false [] := by
  have hz : uploadVectors fid (sf ff.filename) embed
      ((extract (fid ++ "_" ++ sf ff.filename)).map split) 0 = ([], 0) := by
    apply uploadVectors_empty_pages
    intro p hp
    obtain ⟨t, ht, rfl⟩ := List.mem_map.mp hp
    exact h t ht
  simp [upload, hz, hs, hf]

theorem upload_zero_chunks_no_upsert_witness :
    upload (fun s => s) "fid" (fun _ => [1]) (fun _ => ["page"]) (fun _ => [])
        (some "s1") (some ⟨"a.txt"⟩)
      = .success (.obj [("ok", .bool true), ("doc_id", .str "fid"),
                        ("num_chunks", .num 0), ("filename", .str "a.txt")])
          false [] :=
  upload_zero_chunks_no_upsert (fun s => s) "fid" (fun _ => [1]) (fun _ => ["page"])
    (fun _ => []) "s1" ⟨"a.txt"⟩ (by decide) (by decide) (by simp)

/-- C2 (code evidence): `/upload` performs no extension validation —
a `.exe` upload with a valid student id is fully processed (chunks
embedded, `index.upsert` invoked, HTTP 200 with `ok` true) even though
the `_allowed` predicate, which the source defines but never calls,
rejects the filename. -/
theorem upload_processes_disallowed_extension :
    upload (fun s => s) "fid" (fun _ => [7]) (fun _ => ["page text?"]) (fun t => [(0, t)])
        (some "s1") (some ⟨"notes.exe"⟩)
      = .success (.obj [("ok", .bool true), ("doc_id", .str "fid"),
                        ("num_chunks", .num 1), ("filename", .str "notes.exe")])
          true [{ id := "fid-0", values := [7],
                  metadata := { doc_id := "fid", filename := "notes.exe",
                                chunk_id := 0, text := "page text?" } }]
    ∧ _allowed "notes.exe" = false := by
  exact ⟨rfl, rfl⟩

/-- C4: a valid `/ask` request for which the index query returns zero
matches yields the fixed not-found answer with an empty `context_used`
list, and the Answer Generator is not invoked. -/
theorem ask_zero_matches_fixed_response
    (query : Json → String → Int → List MatchRec) (gen : String → String → String)
    (body : List (String × Json)) (q0 : String) (k0 : Int)
    (hq : jStrip (dictGetD body "question" (.str "")) = .ok q0) (hq0 : q0 ≠ "")
    (hs : pyTruthy (dictGetD body "student_id" .null) = true)
    (hk : pyInt (dictGetD body "top_k" (.num 6)) = .ok k0)
    (hz : query (dictGetD body "student_id" .null) q0 k0 = []) :
    ask query gen body
      = .respOk (.obj [("answer", .str "I couldn’t find this in your notes."),
                       ("context_used", .arr [])]) false := by
  simp only [ask, hq, hk]
  rw [if_neg (by simp [hs, hq0])]
  simp [hz]

theorem ask_zero_matches_fixed_response_witness :
    ask (fun _ _ _ => []) (fun _ _ => "A")
        [("student_id", Json.str "s1"), ("question", Json.str "What is X?")]
      = .respOk (.obj [("answer", .str "I couldn’t find this in your notes."),
                       ("context_used", .arr [])]) false :=
  ask_zero_matches_fixed_response (fun _ _ _ => []) (fun _ _ => "A")
    [("student_id", Json.str "s1"), ("question", Json.str "What is X?")]
    "What is X?" 6 (by rfl) (by decide) (by rfl) (by rfl) (by rfl)

/-- C9: a valid `/ask` request with at least one match returns the
answer generated from the context block — the matched chunks' text,
each tagged with its chunk index and filename, concatenated in the
order the index returned them — together with one citation per match,
in the same order, carrying doc_id, filename, chunk_id and score. -/
theorem ask_matches_context_and_citations
    (query : Json → String → Int → List MatchRec) (gen : String → String → String)
    (body : List (String × Json)) (q0 : String) (k0 : Int)
    (hq : jStrip (dictGetD body "question" (.str "")) = .ok q0) (hq0 : q0 ≠ "")
    (hs : pyTruthy (dictGetD body "student_id" .null) = true)
    (hk : pyInt (dictGetD body "top_k" (.num 6)) = .ok k0)
    (hm : query (dictGetD body "student_id" .null) q0 k0 ≠ []) :
    ask query gen body
      = .respOk (.obj [
          ("answer", .str (gen q0 (String.intercalate "\n\n"
            ((query (dictGetD body "student_id" .null) q0 k0).map (fun m =>
              "[chunk " ++ pyStr (dictGetD m.metadata "chunk_id" .null) ++ " from "
                ++ pyStr (dictGetD m.metadata "filename" .null) ++ "] "
                ++ pyStr (dictGetD m.metadata "text" (.str ""))))))),
          ("context_used", .arr ((query (dictGetD body "student_id" .null) q0 k0).map
            (fun m => Json.obj [("doc_id", dictGetD m.metadata "doc_id" .null),
                                ("filename", dictGetD m.metadata "filename" .null),
                                ("chunk_id", dictGetD m.metadata "chunk_id" .null),
                                ("score", m.score)])))]) true := by
  simp only [ask, hq, hk]
  rw [if_neg (by simp [hs, hq0])]
  have hne : (query (dictGetD body "student_id" .null) q0 k0).isEmpty = false := by
    simpa [List.isEmpty_iff] using hm
  simp only [hne]
  rfl

/-- A concrete index match used to instantiate the `/ask` and
`/summarize` theorems. -/
def matchW : MatchRec :=
  { metadata := [("doc_id", Json.str "d1"), ("filename", Json.str "f.md"),
                 ("chunk_id", Json.num 2), ("text", Json.str "T")],
    score := Json.num 1 }

theorem ask_matches_context_and_citations_witness :
    ask (fun _ _ _ => [matchW]) (fun q c => "ANS " ++ q ++ c)
        [("student_id", Json.str "s1"), ("question", Json.str "Q?")]
      = .respOk (.obj [
          ("answer", .str ((fun q c => "ANS " ++ q ++ c) "Q?" (String.intercalate "\n\n"
            (((fun (_ : Json) (_ : String) (_ : Int) => [matchW])
                (dictGetD [("student_id", Json.str "s1"), ("question", Json.str "Q?")] "student_id" .null) "Q?" 6).map (fun m =>
              "[chunk " ++ pyStr (dictGetD m.metadata "chunk_id" .null) ++ " from "
                ++ pyStr (dictGetD m.metadata "filename" .null) ++ "] "
                ++ pyStr (dictGetD m.metadata "text" (.str ""))))))),
          ("context_used", .arr (((fun (_ : Json) (_ : String) (_ : Int) => [matchW])
              (dictGetD [("student_id", Json.str "s1"), ("question", Json.str "Q?")] "student_id" .null) "Q?" 6).map
            (fun m => Json.obj [("doc_id", dictGetD m.metadata "doc_id" .null),
                                ("filename", dictGetD m.metadata "filename" .null),
                                ("chunk_id", dictGetD m.metadata "chunk_id" .null),
                                ("score", m.score)])))]) true :=
  ask_matches_context_and_citations (fun _ _ _ => [matchW]) (fun q c => "ANS " ++ q ++ c)
    [("student_id", Json.str "s1"), ("question", Json.str "Q?")]
    "Q?" 6 (by rfl) (by decide) (by rfl) (by rfl) (by simp)

/-- C3 (counterexample): a valid `/summarize` request whose index query
returns zero matches gets an HTTP 200 whose body has a `summary` key
but NO `topic` key, contradicting the claim that both keys are always
present. -/
theorem summarize_zero_matches_lacks_topic_key :
    (summarize (fun _ _ _ => []) (fun _ _ => "S")
        [("student_id", Json.str "s1"), ("topic", Json.str "anatomy")]).statusOf = 200
    ∧ hasKey (summarize (fun _ _ _ => []) (fun _ _ => "S")
        [("student_id", Json.str "s1"), ("topic", Json.str "anatomy")]).bodyOf "topic" = false
    ∧ hasKey (summarize (fun _ _ _ => []) (fun _ _ => "S")
        [("student_id", Json.str "s1"), ("topic", Json.str "anatomy")]).bodyOf "summary" = true :=
  ⟨rfl, rfl, rfl⟩

/-- C3 (amended): a valid `/summarize` request returns HTTP 200 whose
body contains both `topic` and `summary` keys whenever the index query
returns at least one match; when it returns zero matches the 200 body
is `{"summary": "No relevant notes found to summarize."}` with no
`topic` key. -/
theorem summarize_topic_and_summary_keys
    (query : Json → String → Int → List MatchRec) (gen : String → String → String)
    (body : List (String × Json)) (t0 : String) (k0 : Int)
    (ht : jStrip (dictGetD body "topic" (.str "")) = .ok t0) (ht0 : t0 ≠ "")
    (hs : pyTruthy (dictGetD body "student_id" .null) = true)
    (hk : pyInt (dictGetD body "top_k" (.num 12)) = .ok k0) :
    (query (dictGetD body "student_id" .null) t0 k0 ≠ [] →
      summarize query gen body
        = .respOk (.obj [("topic", .str t0),
            ("summary", .str (gen ("Summarize the topic: " ++ t0
                ++ " using ONLY the context below. Produce a concise, exam-oriented summary with bullet points and key definitions.")
              (String.intercalate "\n\n"
                ((query (dictGetD body "student_id" .null) t0 k0).map sumTag))))]) true)
    ∧ (query (dictGetD body "student_id" .null) t0 k0 = [] →
      summarize query gen body
        = .respOk (.obj [("summary", .str "No relevant notes found to summarize.")]) false) := by
  constructor
  · intro hm
    simp only [summarize, ht, hk]
    rw [if_neg (by simp [hs, ht0])]
    have hne : (query (dictGetD body "student_id" .null) t0 k0).isEmpty = false := by
      simpa [List.isEmpty_iff] using hm
    simp only [hne]
    rfl
  · intro hz
    simp only [summarize, ht, hk]
    rw [if_neg (by simp [hs, ht0])]
    simp [hz]

theorem summarize_topic_and_summary_keys_witness :
    summarize (fun _ _ _ => [matchW]) (fun _ _ => "S")
        [("student_id", Json.str "s1"), ("topic", Json.str "anatomy")]
      = .respOk (.obj [("topic", .str "anatomy"),
          ("summary", .str ((fun (_ : String) (_ : String) => "S") ("Summarize the topic: " ++ "anatomy"
              ++ " using ONLY the context below. Produce a concise, exam-oriented summary with bullet points and key definitions.")
            (String.intercalate "\n\n"
              (((fun (_ : Json) (_ : String) (_ : Int) => [matchW])
                  (dictGetD [("student_id", Json.str "s1"), ("topic", Json.str "anatomy")] "student_id" .null) "anatomy" 12).map sumTag))))]) true
    ∧ summarize (fun _ _ _ => []) (fun _ _ => "S")
        [("student_id", Json.str "s2"), ("topic", Json.str "renal")]
      = .respOk (.obj [("summary", .str "No relevant notes found to summarize.")]) false :=
  ⟨(summarize_topic_and_summary_keys (fun _ _ _ => [matchW]) (fun _ _ => "S")
      [("student_id", Json.str "s1"), ("topic", Json.str "anatomy")] "anatomy" 12
      (by rfl) (by decide) (by rfl) (by rfl)).1 (by simp),
   (summarize_topic_and_summary_keys (fun _ _ _ => []) (fun _ _ => "S")
      [("student_id", Json.str "s2"), ("topic", Json.str "renal")] "renal" 12
      (by rfl) (by decide) (by rfl) (by rfl)).2 rfl⟩

theorem pyStripStr_empty : pyStripStr "" = "" := rfl

/-- C1 (counterexample): a `/ask` request missing its required
`student_id` (and `question`) but carrying a non-numeric `top_k`
reaches `int(body.get("top_k", 6))` BEFORE the validation check, so it
raises and Flask answers 500, not the claimed 400. -/
theorem ask_missing_field_crashes :
    (ask (fun _ _ _ => []) (fun _ _ => "") [("top_k", Json.str "x")]).statusOf = 500
    ∧ List.lookup "student_id" [("top_k", Json.str "x")] = (none : Option Json) :=
  ⟨rfl, rfl⟩

/-- C1 (amended): a request missing a required field gets HTTP 400 with
an `error` key — and never a 500 — on `/upload` unconditionally, and on
`/ask`, `/summarize`, `/flashcards` provided the other supplied fields
are well-typed (the question/topic value, if present, is a string, and
the `top_k` value, if present, is a number); without that proviso the
`int(top_k)` conversion that precedes validation can raise and produce
a 500. -/
theorem missing_required_field_yields_400 :
    (∀ (sf : String → String) (fid : String) (embed : String → List Int)
        (extract : String → List String) (split : String → List (Nat × String))
        (sid : Option String) (f : Option UploadFile),
        sid = none ∨ f = none →
        upload sf fid embed extract split sid f
          = .badRequest (.obj [("error", .str "student_id and file are required")]))
    ∧ (∀ (query : Json → String → Int → List MatchRec) (gen : String → String → String)
        (body : List (String × Json)),
        (List.lookup "student_id" body = none ∨ List.lookup "question" body = none) →
        (∀ v, List.lookup "question" body = some v → ∃ s, v = Json.str s) →
        (∀ v, List.lookup "top_k" body = some v → ∃ n, v = Json.num n) →
        ask query gen body
          = .resp400 (.obj [("error", .str "student_id and question are required")]))
    ∧ (∀ (query : Json → String → Int → List MatchRec) (gen : String → String → String)
        (body : List (String × Json)),
        (List.lookup "student_id" body = none ∨ List.lookup "topic" body = none) →
        (∀ v, List.lookup "topic" body = some v → ∃ s, v = Json.str s) →
        (∀ v, List.lookup "top_k" body = some v → ∃ n, v = Json.num n) →
        summarize query gen body
          = .resp400 (.obj [("error", .str "student_id and topic are required")]))
    ∧ (∀ (query : Json → String → Int → List MatchRec) (gen : String → String → String)
        (body : List (String × Json)),
        (List.lookup "student_id" body = none ∨ List.lookup "topic" body = none) →
        (∀ v, List.lookup "topic" body = some v → ∃ s, v = Json.str s) →
        (∀ v, List.lookup "top_k" body = some v → ∃ n, v = Json.num n) →
        flashcards query gen body
          = .resp400 (.obj [("error", .str "student_id and topic are required")])) := by
  refine ⟨?_, ?_, ?_, ?_⟩
  · intro sf fid embed extract split sid f hmiss
    rcases hmiss with rfl | rfl
    · cases f <;> rfl
    · cases sid <;> rfl
  · intro query gen body hmiss hq hk
    have hkv : ∃ k0, pyInt (dictGetD body "top_k" (.num 6)) = .ok k0 := by
      cases htk : List.lookup "top_k" body with
      | none => exact ⟨6, by simp [dictGetD, htk, pyInt]⟩
      | some v =>
        obtain ⟨n, rfl⟩ := hk v htk
        exact ⟨n, by simp [dictGetD, htk, pyInt]⟩
    have hqv : ∃ q0, jStrip (dictGetD body "question" (.str "")) = .ok q0
        ∧ (List.lookup "question" body = none → q0 = "") := by
      cases hqq : List.lookup "question" body with
      | none => exact ⟨"", by simp [dictGetD, hqq, jStrip, pyStripStr_empty], fun _ => rfl⟩
      | some v =>
        obtain ⟨s, rfl⟩ := hq v hqq
        refine ⟨pyStripStr s, by simp [dictGetD, hqq, jStrip], ?_⟩
        intro hn
        exact absurd hn (by simp)
    obtain ⟨q0, hq0, hq0none⟩ := hqv
    obtain ⟨k0, hk0⟩ := hkv
    have hcond : ¬ pyTruthy (dictGetD body "student_id" .null) = true ∨ q0 = "" := by
      rcases hmiss with hms | hmq
      · left
        simp [dictGetD, hms, pyTruthy]
      · right
        exact hq0none hmq
    simp only [ask, hq0, hk0]
    rw [if_pos hcond]
  · intro query gen body hmiss ht hk
    have hkv : ∃ k0, pyInt (dictGetD body "top_k" (.num 12)) = .ok k0 := by
      cases htk : List.lookup "top_k" body with
      | none => exact ⟨12, by simp [dictGetD, htk, pyInt]⟩
      | some v =>
        obtain ⟨n, rfl⟩ := hk v htk
        exact ⟨n, by simp [dictGetD, htk, pyInt]⟩
    have htv : ∃ t0, jStrip (dictGetD body "topic" (.str "")) = .ok t0
        ∧ (List.lookup "topic" body = none → t0 = "") := by
      cases htq : List.lookup "topic" body with
      | none => exact ⟨"", by simp [dictGetD, htq, jStrip, pyStripStr_empty], fun _ => rfl⟩
      | some v =>
        obtain ⟨s, rfl⟩ := ht v htq
        refine ⟨pyStripStr s, by simp [dictGetD, htq, jStrip], ?_⟩
        intro hn
        exact absurd hn (by simp)
    obtain ⟨t0, ht0, ht0none⟩ := htv
    obtain ⟨k0, hk0⟩ := hkv
    have hcond : ¬ pyTruthy (dictGetD body "student_id" .null) = true ∨ t0 = "" := by
      rcases hmiss with hms | hmt
      · left
        simp [dictGetD, hms, pyTruthy]
      · right
        exact ht0none hmt
    simp only [summarize, ht0, hk0]
    rw [if_pos hcond]
  · intro query gen body hmiss ht hk
    have hkv : ∃ k0, pyInt (dictGetD body "top_k" (.num 10)) = .ok k0 := by
      cases htk : List.lookup "top_k" body with
      | none => exact ⟨10, by simp [dictGetD, htk, pyInt]⟩
      | some v =>
        obtain ⟨n, rfl⟩ := hk v htk
        exact ⟨n, by simp [dictGetD, htk, pyInt]⟩
    have htv : ∃ t0, jStrip (flashTopicRaw body) = .ok t0
        ∧ (List.lookup "topic" body = none → t0 = "") := by
      cases htq : List.lookup "topic" body with
      | none =>
        refine ⟨"", ?_, fun _ => rfl⟩
        simp [flashTopicRaw, dictGetD, htq, pyTruthy, jStrip, pyStripStr_empty]
      | some v =>
        obtain ⟨s, rfl⟩ := ht v htq
        by_cases hsb : pyTruthy (Json.str s) = true
        · refine ⟨pyStripStr s, ?_, ?_⟩
          · simp [flashTopicRaw, dictGetD, htq, hsb, jStrip]
          · intro hn
            exact absurd hn (by simp)
        · refine ⟨"", ?_, ?_⟩
          · simp [flashTopicRaw, dictGetD, htq, hsb, jStrip, pyStripStr_empty]
          · intro hn
            rfl
    obtain ⟨t0, ht0, ht0none⟩ := htv
    obtain ⟨k0, hk0⟩ := hkv
    have hcond : ¬ pyTruthy (dictGetD body "student_id" .null) = true ∨ t0 = "" := by
      rcases hmiss with hms | hmt
      · left
        simp [dictGetD, hms, pyTruthy]
      · right
        exact ht0none hmt
    simp only [flashcards, ht0, hk0]
    rw [if_pos hcond]

theorem missing_required_field_yields_400_witness :
    upload (fun s => s) "fid" (fun _ => [1]) (fun _ => []) (fun _ => []) none none
      = .badRequest (.obj [("error", .str "student_id and file are required")])
    ∧ ask (fun _ _ _ => []) (fun _ _ => "") []
      = .resp400 (.obj [("error", .str "student_id and question are required")])
    ∧ summarize (fun _ _ _ => []) (fun _ _ => "") []
      = .resp400 (.obj [("error", .str "student_id and topic are required")])
    ∧ flashcards (fun _ _ _ => []) (fun _ _ => "") []
      = .resp400 (.obj [("error", .str "student_id and topic are required")]) :=
  ⟨missing_required_field_yields_400.1 (fun s => s) "fid" (fun _ => [1])
      (fun _ => []) (fun _ => []) none none (Or.inl rfl),
   missing_required_field_yields_400.2.1 (fun _ _ _ => []) (fun _ _ => "") []
      (Or.inl rfl) (by simp) (by simp),
   missing_required_field_yields_400.2.2.1 (fun _ _ _ => []) (fun _ _ => "") []
      (Or.inl rfl) (by simp) (by simp),
   missing_required_field_yields_400.2.2.2 (fun _ _ _ => []) (fun _ _ => "") []
      (Or.inl rfl) (by simp) (by simp)⟩

/-- C5: on a valid `/flashcards` request, if the Answer Generator's
response is not valid JSON, the returned flashcards are exactly the
response's lines containing a question mark, in order, each stripped of
surrounding whitespace and paired with an empty answer; if the response
parses as JSON (e.g. a list of question/answer objects), the parsed
value is returned unchanged as the flashcards value. -/
theorem flashcards_json_parse_policy
    (query : Json → String → Int → List MatchRec) (gen : String → String → String)
    (body : List (String × Json)) (t0 : String) (k0 : Int) (ctx : String)
    (ht : jStrip (flashTopicRaw body) = .ok t0) (ht0 : t0 ≠ "")
    (hs : pyTruthy (dictGetD body "student_id" .null) = true)
    (hk : pyInt (dictGetD body "top_k" (.num 10)) = .ok k0)
    (hc : flashCtx (query (dictGetD body "student_id" .null) t0 k0) t0 = .ok ctx) :
    (jloads (gen (flashcardsPrompt t0 ctx) ctx) = none →
      flashcards query gen body
        = .respOk (.obj [("flashcards",
            Json.arr (((pySplitNl (gen (flashcardsPrompt t0 ctx) ctx)).filter pyContainsQm).map
              (fun l => Json.obj [("question", Json.str (pyStripStr l)),
                                  ("answer", Json.str "")])))]) true ctx)
    ∧ (∀ v, jloads (gen (flashcardsPrompt t0 ctx) ctx) = some v →
      flashcards query gen body = .respOk (.obj [("flashcards", v)]) true ctx) := by
  constructor
  · intro hnone
    simp only [flashcards, ht, hk]
    rw [if_neg (by simp [hs, ht0])]
    simp [hc, hnone, lineScanFlashcards]
  · intro v hsome
    simp only [flashcards, ht, hk]
    rw [if_neg (by simp [hs, ht0])]
    simp [hc, hsome]

theorem flashcards_json_parse_policy_witness :
    flashcards (fun _ _ _ => [])
        (fun _ _ => "[\x7b\"question\": \"Q1\", \"answer\": \"A1\"\x7d]")
        [("student_id", Json.str "s1"), ("topic", Json.str "cardio")]
      = .respOk (.obj [("flashcards",
          Json.arr [Json.obj [("question", Json.str "Q1"), ("answer", Json.str "A1")]])])
          true "General notes about cardio"
    ∧ flashcards (fun _ _ _ => []) (fun _ _ => "no json\nWhat is X?")
        [("student_id", Json.str "s1"), ("topic", Json.str "cardio")]
      = .respOk (.obj [("flashcards",
          Json.arr [Json.obj [("question", Json.str "What is X?"),
                              ("answer", Json.str "")]])])
          true "General notes about cardio" :=
  ⟨(flashcards_json_parse_policy (fun _ _ _ => [])
      (fun _ _ => "[\x7b\"question\": \"Q1\", \"answer\": \"A1\"\x7d]")
      [("student_id", Json.str "s1"), ("topic", Json.str "cardio")]
      "cardio" 10 "General notes about cardio"
      (by rfl) (by decide) (by rfl) (by rfl) (by rfl)).2
      (Json.arr [Json.obj [("question", Json.str "Q1"), ("answer", Json.str "A1")]])
      (by rfl),
   (flashcards_json_parse_policy (fun _ _ _ => []) (fun _ _ => "no json\nWhat is X?")
      [("student_id", Json.str "s1"), ("topic", Json.str "cardio")]
      "cardio" 10 "General notes about cardio"
      (by rfl) (by decide) (by rfl) (by rfl) (by rfl)).1
      (by rfl)⟩

/-- C6 (counterexample): on a zero-match `/flashcards` request the
context handed to the Answer Generator is "General notes about
cardiology" — capitalised — not the claimed lowercase "general notes
about cardiology". -/
theorem flashcards_fallback_context_not_lowercase :
    (flashcards (fun _ _ _ => []) (fun _ _ => "R")
        [("student_id", Json.str "s1"), ("topic", Json.str "cardiology")]).genContextOf
      = "General notes about cardiology"
    ∧ "General notes about cardiology" ≠ "general notes about cardiology" :=
  ⟨rfl, by decide⟩

/-- C6 (amended): on a valid `/flashcards` request whose index query
returns zero matches, the context passed to the Answer Generator is
"General notes about {topic}" (capital G, topic substituted), and the
Answer Generator is still invoked — the request returns 200 rather
than short-circuiting. -/
theorem flashcards_zero_matches_general_context
    (query : Json → String → Int → List MatchRec) (gen : String → String → String)
    (body : List (String × Json)) (t0 : String) (k0 : Int)
    (ht : jStrip (flashTopicRaw body) = .ok t0) (ht0 : t0 ≠ "")
    (hs : pyTruthy (dictGetD body "student_id" .null) = true)
    (hk : pyInt (dictGetD body "top_k" (.num 10)) = .ok k0)
    (hz : query (dictGetD body "student_id" .null) t0 k0 = []) :
    (flashcards query gen body).genContextOf = "General notes about " ++ t0
    ∧ (flashcards query gen body).genCalledOf = true
    ∧ (flashcards query gen body).statusOf = 200 := by
  simp only [flashcards, ht, hk]
  rw [if_neg (by simp [hs, ht0])]
  simp [hz, flashCtx, FlashResult.genContextOf, FlashResult.genCalledOf,
    FlashResult.statusOf]

theorem flashcards_zero_matches_general_context_witness :
    (flashcards (fun _ _ _ => []) (fun _ _ => "R")
        [("student_id", Json.str "s9"), ("topic", Json.str "renal")]).genContextOf
      = "General notes about " ++ "renal"
    ∧ (flashcards (fun _ _ _ => []) (fun _ _ => "R")
        [("student_id", Json.str "s9"), ("topic", Json.str "renal")]).genCalledOf = true
    ∧ (flashcards (fun _ _ _ => []) (fun _ _ => "R")
        [("student_id", Json.str "s9"), ("topic", Json.str "renal")]).statusOf = 200 :=
  flashcards_zero_matches_general_context (fun _ _ _ => []) (fun _ _ => "R")
    [("student_id", Json.str "s9"), ("topic", Json.str "renal")] "renal" 10
    (by rfl) (by decide) (by rfl) (by rfl) (by rfl)
